import Mathlib

/-!
Shallow embedding of the coupon-matey backend (src/backend.py) and proofs
about its request handlers.

Conventions of the embedding:
- datetimes are Nat timestamps (seconds); `datetime.utcnow()` becomes an
  explicit `now : Nat` parameter threaded into each handler that reads the
  clock; `timedelta(days=n)` is `n * day` seconds;
- a Python dict field that may be absent, null, or a value is modelled as
  `Option (Option α)`: `none` = key absent, `some none` = key present with
  null, `some (some v)` = key present with value `v`;
- nullable database columns are `Option` fields; the NOT NULL constraints
  declared with `nullable=False` are checked at commit time by
  `couponRowValid` (SQLite raises IntegrityError on a null in such a
  column, which the handler catches and turns into a 500 response);
- the outcome of the remote GPT-4o call for one request is an explicit
  `Except String OCRData` parameter (success with parsed data, or the
  raised exception message); the process hash seed behind the builtin
  `hash` of Python is an explicit `String → Int` parameter;
- the SQLite store is a record of three tables (lists of rows); the
  autoincrement primary key is `freshId` (max existing id plus one).
-/

namespace CouponMatey

/-- Seconds in one day, the unit behind `timedelta(days=n)`. -/
def day : Nat := 86400

/-- Autoincrement primary key for a new row: max existing id plus one. -/
def freshId (ids : List Nat) : Nat := ids.foldr max 0 + 1

/-- Row of the `user` table (class User, backend.py lines 28-35). -/
structure User where
  id : Nat
  email : String
  name : String
  google_id : Option String
  created_at : Nat
deriving Repr, DecidableEq

/-- Row of the `coupon` table (class Coupon, backend.py lines 45-58).
Columns without `nullable=False` are Option; `code`, `title` and
`expiry_date` are declared NOT NULL but an attribute of the transient
Python object can still hold None before the commit, so they are Option
here and the NOT NULL check happens in `couponRowValid`. -/
structure Coupon where
  id : Nat
  user_id : Nat
  code : Option String
  title : Option String
  provider : Option String
  discount : Option String
  terms : Option String
  expiry_date : Option Nat
  deadline : Option Nat
  claimed : Bool
  notified : Bool
  created_at : Nat
  image_path : Option String
deriving Repr, DecidableEq

/-- Row of the `user_settings` table (class UserSettings, backend.py
lines 75-82). -/
structure UserSettings where
  id : Nat
  user_id : Nat
  auto_delete_expired : Bool
  auto_delete_claimed : Bool
  notify_before_expiry_days : Int
  sync_google_calendar : Bool
  ocr_provider : String
deriving Repr, DecidableEq

/-- A fresh `UserSettings(user_id=uid)` object: every other column takes
its declared default (backend.py lines 78-82). -/
def defaultSettingsRec (sid uid : Nat) : UserSettings :=
  { id := sid
    user_id := uid
    auto_delete_expired := false
    auto_delete_claimed := false
    notify_before_expiry_days := 3
    sync_google_calendar := false
    ocr_provider := "gpt4o" }

/-- The JSON shape produced by UserSettings.to_dict (backend.py
lines 84-91). -/
structure SettingsDict where
  autoDeleteExpired : Bool
  autoDeleteClaimed : Bool
  notifyBeforeExpiry : Int
  syncGoogleCalendar : Bool
  ocrProvider : String
deriving Repr, DecidableEq

/-- UserSettings.to_dict (backend.py lines 84-91). -/
def UserSettings.to_dict (s : UserSettings) : SettingsDict :=
  { autoDeleteExpired := s.auto_delete_expired
    autoDeleteClaimed := s.auto_delete_claimed
    notifyBeforeExpiry := s.notify_before_expiry_days
    syncGoogleCalendar := s.sync_google_calendar
    ocrProvider := s.ocr_provider }

/-- The SQLite database: one list of rows per table. -/
structure Store where
  users : List User
  coupons : List Coupon
  settings : List UserSettings
deriving Repr, DecidableEq

/-- JSON body of a handler response. -/
inductive JsonBody where
  | error (msg : String)
  | couponBody (c : Coupon)
  | settingsBody (s : SettingsDict)
  | message (msg : String)
deriving Repr, DecidableEq

/-- Result of one handler call: the store after the call, the HTTP status
and the response body. -/
structure HResult where
  store : Store
  status : Nat
  body : JsonBody
deriving Repr, DecidableEq

/-- Structured record returned by an OCR extraction (the dict documented
at backend.py lines 100-115).  Each dict key may be absent, null, or
carry a value, hence `Option (Option _)`. -/
structure OCRData where
  code : Option (Option String)
  title : Option (Option String)
  provider : Option (Option String)
  discount : Option (Option String)
  terms : Option (Option String)
  expiryDate : Option (Option Nat)
  deadline : Option (Option Nat)
deriving Repr, DecidableEq

/-- Python `d.get(k, default)`: the default is returned only when the key
is ABSENT; a key present with null yields None. -/
def pyGet {α : Type} (field : Option (Option α)) (default : α) : Option α :=
  match field with
  | none => some default
  | some v => v

/-- Python string `%` with a positive modulus (result is nonnegative even
for a negative hash). -/
def pyMod10000 (n : Int) : Nat := (n % (10000 : Int)).toNat

/-- Python format `{...:04d}` on a value below 10000: zero-pad to four
digits. -/
def pyFormat04d (n : Nat) : String :=
  String.mk (List.replicate (4 - (toString n).length) '0') ++ toString n

/-- MockOCR.extract_coupon_data (backend.py lines 198-207).  `pyHash` is
the process string-hash function (Python randomizes it per process) and
`now` the value of `datetime.utcnow()` at the invocation. -/
def MockOCR.extract_coupon_data (pyHash : String → Int) (now : Nat)
    (image_base64 : String) : OCRData :=
  { code := some (some ("MOCK" ++ pyFormat04d (pyMod10000 (pyHash image_base64))))
    title := some (some "Mock Coupon from Image")
    provider := some (some "TestMerchant")
    discount := some (some "15% off")
    terms := some (some "Valid on purchases over $50")
    expiryDate := some (some (now + 30 * day))
    deadline := some (some (now + 25 * day)) }

/-- The two OCR provider classes the factory knows (backend.py
lines 213-216). -/
inductive OCRProviderT where
  | gpt4o
  | mock
deriving Repr, DecidableEq

/-- OCRFactory.create_provider (backend.py lines 218-224): an unknown
name raises ValueError, modelled as `Except.error`. -/
def create_provider (provider_name : String) : Except String OCRProviderT :=
  if provider_name = "gpt4o" then Except.ok OCRProviderT.gpt4o
  else if provider_name = "mock" then Except.ok OCRProviderT.mock
  else Except.error ("Unknown OCR provider: " ++ provider_name)

/-- Provider selection in create_coupon (backend.py lines 303-306): the
literal name `gpt4o` goes to the factory as such, every other settings
string goes to the factory as the literal `mock`. -/
def handlerSelectProvider (provider_name : String) : Except String OCRProviderT :=
  if provider_name = "gpt4o" then create_provider "gpt4o"
  else create_provider "mock"

/-- Outcome of the OCR extraction step of create_coupon (backend.py
line 309) as a function of the settings string: the remote branch yields
the outcome of the GPT-4o call, the mock branch the mock data. -/
def couponOCRResult (provider_name : String) (gpt4oResult : Except String OCRData)
    (mockData : OCRData) : Except String OCRData :=
  match handlerSelectProvider provider_name with
  | Except.ok OCRProviderT.gpt4o => gpt4oResult
  | Except.ok OCRProviderT.mock => Except.ok mockData
  | Except.error e => Except.error e

/-- Python `s.split(sep)` on a list of characters (no maxsplit): the
list of maximal separator-free chunks, with empty chunks kept. -/
def splitChar (sep : Char) : List Char → List (List Char)
  | [] => [[]]
  | c :: cs =>
    match splitChar sep cs with
    | [] => [[]]
    | p :: ps => if c = sep then [] :: p :: ps else (c :: p) :: ps

/-- Python `image_base64.split(',')` as a list of strings. -/
def pySplitComma (s : String) : List String :=
  (splitChar ',' s.data).map (fun l => String.mk l)

/-- The image preprocessing of create_coupon (backend.py lines 290-291):
when the string holds a comma, keep `split(',')[1]`, the chunk between
the first and the second comma. -/
def extractImage (s : String) : String :=
  if ',' ∈ s.data then ((pySplitComma s).get? 1).getD "" else s

/-- Replace the first element satisfying `p` (the ORM mutates the single
row returned by `.first()`). -/
def replaceFirst {α : Type} (p : α → Bool) (y : α) : List α → List α
  | [] => []
  | x :: xs => if p x then y :: xs else x :: replaceFirst p y xs

/-- Remove the first element satisfying `p` (`db.session.delete` on the
row returned by `.first()`). -/
def removeFirst {α : Type} (p : α → Bool) : List α → List α
  | [] => []
  | x :: xs => if p x then xs else x :: removeFirst p xs

/-- The filter of `Coupon.query.filter_by(id=coupon_id, user_id=user_id)`. -/
def matchCoupon (uid cid : Nat) (c : Coupon) : Bool :=
  c.id == cid && c.user_id == uid

/-- `Coupon.query.filter_by(id=coupon_id, user_id=user_id).first()`. -/
def couponLookup (st : Store) (uid cid : Nat) : Option Coupon :=
  st.coupons.find? (matchCoupon uid cid)

/-- `User.query.get(user_id)`: primary-key lookup. -/
def userLookup (st : Store) (uid : Nat) : Option User :=
  st.users.find? (fun u => u.id == uid)

/-- GET /api/coupons (backend.py lines 260-266): the rows of
`Coupon.query.filter_by(user_id=user_id).all()`. -/
def get_coupons (st : Store) (uid : Nat) : List Coupon :=
  st.coupons.filter (fun c => c.user_id == uid)

/-- Body of a PATCH /api/coupons request: the optional `claimed` key. -/
structure PatchBody where
  claimed : Option Bool
deriving Repr, DecidableEq

/-- PATCH /api/coupons/<id> (backend.py lines 333-348). -/
def update_coupon (st : Store) (uid cid : Nat) (body : PatchBody) : HResult :=
  match couponLookup st uid cid with
  | none => ⟨st, 404, JsonBody.error "Coupon not found"⟩
  | some c =>
    match body.claimed with
    | some b =>
      ⟨{ st with coupons := replaceFirst (matchCoupon uid cid) { c with claimed := b } st.coupons },
        200, JsonBody.couponBody { c with claimed := b }⟩
    | none =>
      ⟨{ st with coupons := replaceFirst (matchCoupon uid cid) c st.coupons },
        200, JsonBody.couponBody c⟩

/-- DELETE /api/coupons/<id> (backend.py lines 351-363). -/
def delete_coupon (st : Store) (uid cid : Nat) : HResult :=
  match couponLookup st uid cid with
  | none => ⟨st, 404, JsonBody.error "Coupon not found"⟩
  | some _ =>
    ⟨{ st with coupons := removeFirst (matchCoupon uid cid) st.coupons },
      200, JsonBody.message "Coupon deleted"⟩

/-- GET /api/settings (backend.py lines 366-378): return the settings row
of the caller, creating it with the column defaults when absent. -/
def get_settings (st : Store) (uid : Nat) : Store × SettingsDict :=
  match st.settings.find? (fun s => s.user_id == uid) with
  | some s => (st, s.to_dict)
  | none =>
    let s := defaultSettingsRec (freshId (st.settings.map (fun r => r.id))) uid
    ({ st with settings := st.settings ++ [s] }, s.to_dict)

/-- Body of a POST /api/settings request: each key optional. -/
structure SettingsPatch where
  autoDeleteExpired : Option Bool
  autoDeleteClaimed : Option Bool
  notifyBeforeExpiry : Option Int
  syncGoogleCalendar : Option Bool
  ocrProvider : Option String
deriving Repr, DecidableEq

/-- Apply the partial-field update of POST /api/settings (backend.py
lines 393-402) to one settings row. -/
def applySettingsPatch (s : UserSettings) (p : SettingsPatch) : UserSettings :=
  { s with
    auto_delete_expired := p.autoDeleteExpired.getD s.auto_delete_expired
    auto_delete_claimed := p.autoDeleteClaimed.getD s.auto_delete_claimed
    notify_before_expiry_days := p.notifyBeforeExpiry.getD s.notify_before_expiry_days
    sync_google_calendar := p.syncGoogleCalendar.getD s.sync_google_calendar
    ocr_provider := p.ocrProvider.getD s.ocr_provider }

/-- POST /api/settings (backend.py lines 381-405). -/
def update_settings (st : Store) (uid : Nat) (p : SettingsPatch) : Store × SettingsDict :=
  match st.settings.find? (fun s => s.user_id == uid) with
  | some s =>
    let s2 := applySettingsPatch s p
    ({ st with settings := replaceFirst (fun r => r.user_id == uid) s2 st.settings }, s2.to_dict)
  | none =>
    let s2 := applySettingsPatch (defaultSettingsRec (freshId (st.settings.map (fun r => r.id))) uid) p
    ({ st with settings := st.settings ++ [s2] }, s2.to_dict)

/-- POST /api/auth/login (backend.py lines 234-257): look the user up by
email; a new user row AND a default settings row are inserted when the
email is unknown. -/
def login (st : Store) (email name : String) (now : Nat) : Store × User :=
  match st.users.find? (fun u => u.email == email) with
  | some u => (st, u)
  | none =>
    let uid := freshId (st.users.map (fun u => u.id))
    let u : User := { id := uid, email := email, name := name, google_id := none, created_at := now }
    let s := defaultSettingsRec (freshId (st.settings.map (fun r => r.id))) uid
    ({ st with users := st.users ++ [u], settings := st.settings ++ [s] }, u)

/-- Deleting a user row through the ORM session: the declarations
`cascade='all, delete-orphan'` on User.coupons and User.settings
(backend.py lines 33-34) delete every coupon row and settings row of the
user together with the user row. -/
def delete_user (st : Store) (uid : Nat) : Store :=
  { users := st.users.filter (fun u => ! (u.id == uid))
    coupons := st.coupons.filter (fun c => ! (c.user_id == uid))
    settings := st.settings.filter (fun s => ! (s.user_id == uid)) }

/-- `user.settings or UserSettings(user_id=user_id)` (backend.py
line 299): the related settings row, or a fresh default object. -/
def effectiveSettings (st : Store) (uid : Nat) : UserSettings :=
  match st.settings.find? (fun s => s.user_id == uid) with
  | some s => s
  | none => defaultSettingsRec 0 uid

/-- Body of a POST /api/coupons request: the optional `image` key
(`data.get('image')` yields None both for an absent key and a null). -/
structure CreateBody where
  image : Option String
deriving Repr, DecidableEq

/-- The NOT NULL constraints of the coupon table (backend.py lines 48,
49, 53): SQLite rejects the INSERT when `code`, `title` or `expiry_date`
is null. -/
def couponRowValid (c : Coupon) : Bool :=
  c.code.isSome && c.title.isSome && c.expiry_date.isSome

/-- The Coupon(...) constructed at backend.py lines 312-321 from one OCR
record: `.get` defaults for absent keys, column defaults for `claimed`,
`notified`, `created_at`; `image_path` is never set. -/
def buildCoupon (uid : Nat) (dat : OCRData) (cid now : Nat) : Coupon :=
  { id := cid
    user_id := uid
    code := pyGet dat.code "UNKNOWN"
    title := pyGet dat.title "Coupon"
    provider := pyGet dat.provider ""
    discount := pyGet dat.discount ""
    terms := pyGet dat.terms ""
    expiry_date := pyGet dat.expiryDate (now + 30 * day)
    deadline := dat.deadline.getD none
    claimed := false
    notified := false
    created_at := now
    image_path := none }

/-- The add-and-commit step of create_coupon (backend.py lines 323-326):
the row is appended when it meets the NOT NULL constraints; otherwise the
commit raises IntegrityError, caught at line 328 into a 500 response with
the store unchanged. -/
def persistCoupon (st : Store) (c : Coupon) : HResult :=
  if couponRowValid c then
    ⟨{ st with coupons := st.coupons ++ [c] }, 201, JsonBody.couponBody c⟩
  else
    ⟨st, 500, JsonBody.error "NOT NULL constraint failed"⟩

/-- POST /api/coupons (backend.py lines 269-330).  `gpt4oResult` is the
outcome of the remote GPT-4o call for this request (`Except.error` when
the call raises), `pyHash` the process string-hash, `now` the clock. -/
def create_coupon (st : Store) (uid : Nat) (body : Option CreateBody)
    (gpt4oResult : Except String OCRData) (pyHash : String → Int) (now : Nat) : HResult :=
  match userLookup st uid with
  | none => ⟨st, 404, JsonBody.error "User not found"⟩
  | some _ =>
    match body with
    | none => ⟨st, 400, JsonBody.error "No JSON data provided"⟩
    | some b =>
      match b.image with
      | none => ⟨st, 400, JsonBody.error "No image provided"⟩
      | some img =>
        if img = "" then ⟨st, 400, JsonBody.error "No image provided"⟩
        else
          match couponOCRResult (effectiveSettings st uid).ocr_provider gpt4oResult
              (MockOCR.extract_coupon_data pyHash now (extractImage img)) with
          | Except.error e => ⟨st, 500, JsonBody.error e⟩
          | Except.ok dat =>
            persistCoupon st
              (buildCoupon uid dat (freshId (st.coupons.map (fun c => c.id))) now)

/-! Helper lemmas. -/

/-- Filtering with a predicate after filtering with its negation leaves
nothing. -/
theorem filter_not_filter {α : Type} (p : α → Bool) (l : List α) :
    List.filter p (List.filter (fun x => ! p x) l) = [] := by
  induction l with
  | nil => rfl
  | cons a l ih =>
    by_cases h : p a = true <;>
      simp [List.filter_cons, h, ih]

/-- Membership after `replaceFirst`: an element is an old element or the
replacement. -/
theorem mem_replaceFirst {α : Type} {p : α → Bool} {y x : α} :
    ∀ {l : List α}, x ∈ replaceFirst p y l → x ∈ l ∨ x = y := by
  intro l
  induction l with
  | nil => intro h; exact Or.inl h
  | cons a l ih =>
    intro h
    unfold replaceFirst at h
    by_cases hp : p a = true
    · rw [if_pos hp] at h
      rcases List.mem_cons.mp h with h | h
      · exact Or.inr h
      · exact Or.inl (List.mem_cons_of_mem _ h)
    · rw [if_neg hp] at h
      rcases List.mem_cons.mp h with h | h
      · exact Or.inl (h ▸ List.mem_cons_self a l)
      · rcases ih h with h | h
        · exact Or.inl (List.mem_cons_of_mem _ h)
        · exact Or.inr h

/-- Replacing the first match with the very element `find?` returns is a
no-op. -/
theorem replaceFirst_of_found {α : Type} {p : α → Bool} {y : α} :
    ∀ {l : List α}, l.find? p = some y → replaceFirst p y l = l := by
  intro l
  induction l with
  | nil => intro h; cases h
  | cons a l ih =>
    intro h
    unfold replaceFirst
    by_cases hp : p a = true
    · rw [List.find?_cons_of_pos _ hp] at h
      rw [if_pos hp]
      cases h
      rfl
    · rw [List.find?_cons_of_neg _ hp] at h
      rw [if_neg hp, ih h]

/-- A coupon persisted by `persistCoupon` is an old row or satisfies the
NOT NULL constraints, in particular a non-null expiry date. -/
theorem persistCoupon_mem {st : Store} {b c : Coupon}
    (hc : c ∈ (persistCoupon st b).store.coupons) :
    c ∈ st.coupons ∨ c.expiry_date.isSome = true := by
  unfold persistCoupon at hc
  by_cases hv : couponRowValid b = true
  · rw [if_pos hv] at hc
    rcases List.mem_append.mp hc with h | h
    · exact Or.inl h
    · right
      have hb : c = b := List.mem_singleton.mp h
      subst hb
      unfold couponRowValid at hv
      simp only [Bool.and_eq_true] at hv
      exact hv.2
  · rw [if_neg hv] at hc
    exact Or.inl hc

/-- `splitChar` never returns the empty list of chunks. -/
theorem splitChar_ne_nil (sep : Char) (l : List Char) : splitChar sep l ≠ [] := by
  cases l with
  | nil => simp [splitChar]
  | cons c cs =>
    unfold splitChar
    cases h : splitChar sep cs with
    | nil => simp
    | cons p ps =>
      by_cases hc : c = sep <;> simp [hc]

/-- Splitting a list that starts with a separator-free chunk followed by
a separator yields that chunk first. -/
theorem splitChar_append_sep (sep : Char) (a r : List Char) (ha : sep ∉ a) :
    splitChar sep (a ++ sep :: r) = a :: splitChar sep r := by
  induction a with
  | nil =>
    rw [List.nil_append]
    cases h : splitChar sep r with
    | nil => exact absurd h (splitChar_ne_nil sep r)
    | cons p ps => simp [splitChar, h]
  | cons x xs ih =>
    have hx : x ≠ sep := fun h => ha (h ▸ List.mem_cons_self x xs)
    have hxs : sep ∉ xs := fun h => ha (List.mem_cons_of_mem _ h)
    rw [List.cons_append]
    cases h : splitChar sep r with
    | nil => exact absurd h (splitChar_ne_nil sep r)
    | cons p ps => simp [splitChar, ih hxs, h, hx]

/-! Claim theorems. -/

/-- C1: ownership is enforced on every coupon operation: listing returns
exactly the rows owned by the caller, and a PATCH or DELETE naming a
coupon id that exists but belongs to a different user, or does not exist,
returns 404 with body error "Coupon not found" and leaves the store
unchanged. -/
theorem C1 (st : Store) (uid cid : Nat)
    (hown : ∀ c ∈ st.coupons, c.id = cid → c.user_id ≠ uid) :
    (∀ c, c ∈ get_coupons st uid ↔ (c ∈ st.coupons ∧ c.user_id = uid)) ∧
    (∀ body, update_coupon st uid cid body = ⟨st, 404, JsonBody.error "Coupon not found"⟩) ∧
    delete_coupon st uid cid = ⟨st, 404, JsonBody.error "Coupon not found"⟩ := by
  have hnone : couponLookup st uid cid = none := by
    unfold couponLookup
    rw [List.find?_eq_none]
    intro x hx
    simp only [matchCoupon, Bool.and_eq_true, beq_iff_eq, not_and]
    exact hown x hx
  refine ⟨?_, ?_, ?_⟩
  · intro c
    simp [get_coupons, List.mem_filter, beq_iff_eq]
  · intro body
    unfold update_coupon
    rw [hnone]
  · unfold delete_coupon
    rw [hnone]

/-- C1 witness: a store holding one coupon of user 2; the operations of
user 1 naming that coupon id fail with 404 and change nothing. -/
theorem C1_witness :
    (∀ c ∈ (Store.mk [] [⟨1, 2, some "A", some "T", none, none, none, some 10, none, false, false, 0, none⟩] []).coupons,
        c.id = 1 → c.user_id ≠ 1) ∧
    (update_coupon (Store.mk [] [⟨1, 2, some "A", some "T", none, none, none, some 10, none, false, false, 0, none⟩] []) 1 1 ⟨some true⟩
      = ⟨Store.mk [] [⟨1, 2, some "A", some "T", none, none, none, some 10, none, false, false, 0, none⟩] [], 404, JsonBody.error "Coupon not found"⟩) ∧
    delete_coupon (Store.mk [] [⟨1, 2, some "A", some "T", none, none, none, some 10, none, false, false, 0, none⟩] []) 1 1
      = ⟨Store.mk [] [⟨1, 2, some "A", some "T", none, none, none, some 10, none, false, false, 0, none⟩] [], 404, JsonBody.error "Coupon not found"⟩ := by
  refine ⟨by decide, ?_, ?_⟩
  · exact (C1 (Store.mk [] [⟨1, 2, some "A", some "T", none, none, none, some 10, none, false, false, 0, none⟩] []) 1 1 (by decide)).2.1 ⟨some true⟩
  · exact (C1 (Store.mk [] [⟨1, 2, some "A", some "T", none, none, none, some 10, none, false, false, 0, none⟩] []) 1 1 (by decide)).2.2

/-- C2: deleting a user cascades: after `delete_user` no user row with
that id, no coupon row and no settings row referencing that user remain
in the store. -/
theorem C2 (st : Store) (uid : Nat) :
    (delete_user st uid).users.filter (fun u => u.id == uid) = [] ∧
    (delete_user st uid).coupons.filter (fun c => c.user_id == uid) = [] ∧
    (delete_user st uid).settings.filter (fun s => s.user_id == uid) = [] :=
  ⟨filter_not_filter _ st.users, filter_not_filter _ st.coupons,
    filter_not_filter _ st.settings⟩

/-- PATCH /api/coupons never touches the settings table. -/
theorem update_coupon_settings_frame (st : Store) (uid cid : Nat) (body : PatchBody) :
    (update_coupon st uid cid body).store.settings = st.settings := by
  unfold update_coupon
  cases couponLookup st uid cid with
  | none => rfl
  | some c => cases body.claimed with
    | none => rfl
    | some b => rfl

/-- DELETE /api/coupons never touches the settings table. -/
theorem delete_coupon_settings_frame (st : Store) (uid cid : Nat) :
    (delete_coupon st uid cid).store.settings = st.settings := by
  unfold delete_coupon
  cases couponLookup st uid cid with
  | none => rfl
  | some c => rfl

/-- POST /api/coupons never touches the settings table: the fallback
settings object of backend.py line 299 is never added to the session. -/
theorem create_coupon_settings_frame (st : Store) (uid : Nat) (body : Option CreateBody)
    (g : Except String OCRData) (ph : String → Int) (now : Nat) :
    (create_coupon st uid body g ph now).store.settings = st.settings := by
  unfold create_coupon
  split
  · rfl
  split
  · rfl
  split
  · rfl
  split
  · rfl
  split
  · rfl
  unfold persistCoupon
  split
  · rfl
  · rfl

/-- C3 counterexample: login is not an access of settings, yet logging in
with a fresh email inserts a settings row (backend.py lines 247-249): on
the empty store it leaves exactly one settings row. -/
theorem C3_cex :
    (login (Store.mk [] [] []) "a@example.com" "A" 0).1.settings
      = [defaultSettingsRec 1 1] := by
  decide

/-- C3 amended: for an authenticated user with no settings row, GET
/api/settings inserts one row and returns the documented defaults
(autoDeleteExpired and autoDeleteClaimed false, notifyBeforeExpiry 3,
syncGoogleCalendar false, ocrProvider gpt4o); the coupon handlers never
create a settings row, but login for a new user does (see the
counterexample), so settings rows arise only from the settings endpoints
and from login. -/
theorem C3_amended (st : Store) (uid : Nat)
    (h : st.settings.find? (fun s => s.user_id == uid) = none) :
    (∃ srec : UserSettings,
      (get_settings st uid).1 = { st with settings := st.settings ++ [srec] } ∧
      srec.user_id = uid ∧
      (get_settings st uid).2 = ⟨false, false, 3, false, "gpt4o"⟩) ∧
    (∀ cid body, (update_coupon st uid cid body).store.settings = st.settings) ∧
    (∀ cid, (delete_coupon st uid cid).store.settings = st.settings) ∧
    (∀ body g ph now, (create_coupon st uid body g ph now).store.settings = st.settings) := by
  refine ⟨?_, ?_, ?_, ?_⟩
  · unfold get_settings
    rw [h]
    exact ⟨defaultSettingsRec (freshId (st.settings.map (fun r => r.id))) uid, rfl, rfl, rfl⟩
  · intro cid body; exact update_coupon_settings_frame st uid cid body
  · intro cid; exact delete_coupon_settings_frame st uid cid
  · intro body g ph now; exact create_coupon_settings_frame st uid body g ph now

/-- C3 witness: a store holding one user and no settings row; the
hypothesis and the instantiated conclusion are checked concretely. -/
theorem C3_witness :
    ((Store.mk [⟨1, "a", "A", none, 0⟩] [] []).settings.find? (fun s => s.user_id == 1) = none) ∧
    ((∃ srec : UserSettings,
      (get_settings (Store.mk [⟨1, "a", "A", none, 0⟩] [] []) 1).1
        = { Store.mk [⟨1, "a", "A", none, 0⟩] [] [] with
            settings := (Store.mk [⟨1, "a", "A", none, 0⟩] [] []).settings ++ [srec] } ∧
      srec.user_id = 1 ∧
      (get_settings (Store.mk [⟨1, "a", "A", none, 0⟩] [] []) 1).2 = ⟨false, false, 3, false, "gpt4o"⟩) ∧
    (∀ cid body, (update_coupon (Store.mk [⟨1, "a", "A", none, 0⟩] [] []) 1 cid body).store.settings
        = (Store.mk [⟨1, "a", "A", none, 0⟩] [] []).settings) ∧
    (∀ cid, (delete_coupon (Store.mk [⟨1, "a", "A", none, 0⟩] [] []) 1 cid).store.settings
        = (Store.mk [⟨1, "a", "A", none, 0⟩] [] []).settings) ∧
    (∀ body g ph now, (create_coupon (Store.mk [⟨1, "a", "A", none, 0⟩] [] []) 1 body g ph now).store.settings
        = (Store.mk [⟨1, "a", "A", none, 0⟩] [] []).settings)) :=
  ⟨by decide, C3_amended (Store.mk [⟨1, "a", "A", none, 0⟩] [] []) 1 (by decide)⟩

/-- C4: every coupon row in the store after a call of create_coupon is an
old row or carries a non-null expiry date, whatever the OCR extraction
returned (an absent expiryDate key takes the 30-day default at
backend.py line 319; a null one produces a row the NOT NULL column
rejects at commit, so nothing is persisted). -/
theorem C4 (st : Store) (uid now : Nat) (body : Option CreateBody)
    (g : Except String OCRData) (ph : String → Int) (c : Coupon)
    (hc : c ∈ (create_coupon st uid body g ph now).store.coupons) :
    c ∈ st.coupons ∨ c.expiry_date.isSome = true := by
  unfold create_coupon at hc
  split at hc
  · exact Or.inl hc
  split at hc
  · exact Or.inl hc
  split at hc
  · exact Or.inl hc
  split at hc
  · exact Or.inl hc
  split at hc
  · exact Or.inl hc
  exact persistCoupon_mem hc

/-- C4 witness: a concrete create_coupon call whose OCR record has every
key absent persists a coupon with the 30-day default expiry date. -/
theorem C4_witness :
    ((⟨1, 1, some "UNKNOWN", some "Coupon", some "", some "", some "", some 2592000, none,
        false, false, 0, none⟩ : Coupon)
      ∈ (create_coupon (Store.mk [⟨1, "a", "A", none, 0⟩] [] [⟨1, 1, false, false, 3, false, "gpt4o"⟩])
          1 (some ⟨some "img"⟩) (Except.ok ⟨none, none, none, none, none, none, none⟩)
          (fun _ => 0) 0).store.coupons) ∧
    ((⟨1, 1, some "UNKNOWN", some "Coupon", some "", some "", some "", some 2592000, none,
        false, false, 0, none⟩ : Coupon)
        ∈ (Store.mk [⟨1, "a", "A", none, 0⟩] [] [⟨1, 1, false, false, 3, false, "gpt4o"⟩]).coupons ∨
      (⟨1, 1, some "UNKNOWN", some "Coupon", some "", some "", some "", some 2592000, none,
        false, false, 0, none⟩ : Coupon).expiry_date.isSome = true) :=
  ⟨by decide,
    C4 (Store.mk [⟨1, "a", "A", none, 0⟩] [] [⟨1, 1, false, false, 3, false, "gpt4o"⟩]) 1 0
      (some ⟨some "img"⟩) (Except.ok ⟨none, none, none, none, none, none, none⟩)
      (fun _ => 0) _ (by decide)⟩

/-- C5: a PATCH from the owner changes at most the claimed flag: every
coupon row after the call is an old row or agrees with the target on all
fields but claimed, and a body without the claimed key leaves the store
unchanged and still returns the coupon. -/
theorem C5 (st : Store) (uid cid : Nat) (body : PatchBody) (c : Coupon)
    (hc : couponLookup st uid cid = some c) :
    (update_coupon st uid cid body).status = 200 ∧
    (∀ x, x ∈ (update_coupon st uid cid body).store.coupons →
      x ∈ st.coupons ∨
      (x.id = c.id ∧ x.user_id = c.user_id ∧ x.code = c.code ∧ x.title = c.title ∧
       x.provider = c.provider ∧ x.discount = c.discount ∧ x.terms = c.terms ∧
       x.expiry_date = c.expiry_date ∧ x.deadline = c.deadline ∧
       x.notified = c.notified ∧ x.created_at = c.created_at ∧
       x.image_path = c.image_path)) ∧
    (body.claimed = none → update_coupon st uid cid body = ⟨st, 200, JsonBody.couponBody c⟩) := by
  unfold update_coupon
  split
  · next heq =>
    rw [hc] at heq
    exact Option.noConfusion heq
  · next c2 heq =>
    rw [hc] at heq
    injection heq with h2
    subst h2
    cases hb : body.claimed with
    | none =>
      refine ⟨rfl, ?_, ?_⟩
      · intro x hx
        rcases mem_replaceFirst hx with h | h
        · exact Or.inl h
        · subst h
          exact Or.inr ⟨rfl, rfl, rfl, rfl, rfl, rfl, rfl, rfl, rfl, rfl, rfl, rfl⟩
      · intro _
        show (⟨{ st with coupons := replaceFirst (matchCoupon uid cid) c st.coupons }, 200,
            JsonBody.couponBody c⟩ : HResult) = ⟨st, 200, JsonBody.couponBody c⟩
        rw [replaceFirst_of_found hc]
    | some b =>
      refine ⟨rfl, ?_, ?_⟩
      · intro x hx
        rcases mem_replaceFirst hx with h | h
        · exact Or.inl h
        · subst h
          exact Or.inr ⟨rfl, rfl, rfl, rfl, rfl, rfl, rfl, rfl, rfl, rfl, rfl, rfl⟩
      · intro hcl
        exact Option.noConfusion hcl

/-- C5 witness: a PATCH without the claimed key on a concrete store
returns the coupon and leaves the store unchanged. -/
theorem C5_witness :
    (couponLookup (Store.mk [] [⟨1, 1, some "A", some "T", none, none, none, some 10, none, false, false, 0, none⟩] []) 1 1
      = some ⟨1, 1, some "A", some "T", none, none, none, some 10, none, false, false, 0, none⟩) ∧
    (update_coupon (Store.mk [] [⟨1, 1, some "A", some "T", none, none, none, some 10, none, false, false, 0, none⟩] []) 1 1 ⟨none⟩
      = ⟨Store.mk [] [⟨1, 1, some "A", some "T", none, none, none, some 10, none, false, false, 0, none⟩] [], 200,
          JsonBody.couponBody ⟨1, 1, some "A", some "T", none, none, none, some 10, none, false, false, 0, none⟩⟩) :=
  ⟨by decide,
    (C5 (Store.mk [] [⟨1, 1, some "A", some "T", none, none, none, some 10, none, false, false, 0, none⟩] []) 1 1 ⟨none⟩
      ⟨1, 1, some "A", some "T", none, none, none, some 10, none, false, false, 0, none⟩ (by decide)).2.2 rfl⟩

/-- C6: the OCR implementation used by create_coupon is selected by the
settings string alone and the default settings value names the remote
backend: the column default is gpt4o, the gpt4o string makes the
extraction step return the remote outcome, and the remote backend is
chosen exactly when the settings string is gpt4o. -/
theorem C6 (sid uid : Nat) (g : Except String OCRData) (m : OCRData) (s : String) :
    (defaultSettingsRec sid uid).ocr_provider = "gpt4o" ∧
    couponOCRResult "gpt4o" g m = g ∧
    (handlerSelectProvider s = Except.ok OCRProviderT.gpt4o ↔ s = "gpt4o") := by
  refine ⟨rfl, rfl, ?_, ?_⟩
  · intro h
    by_contra hs
    unfold handlerSelectProvider at h
    rw [if_neg hs] at h
    have hm : create_provider "mock" = Except.ok OCRProviderT.mock := rfl
    rw [hm] at h
    exact OCRProviderT.noConfusion (Except.ok.inj h)
  · intro h
    subst h
    rfl

/-- C6 witness: the iff instantiated at the unknown provider string. -/
theorem C6_witness :
    (defaultSettingsRec 0 0).ocr_provider = "gpt4o" ∧
    couponOCRResult "gpt4o" (Except.error "x") ⟨none, none, none, none, none, none, none⟩
      = Except.error "x" ∧
    (handlerSelectProvider "tesseract" = Except.ok OCRProviderT.gpt4o ↔ "tesseract" = "gpt4o") :=
  C6 0 0 (Except.error "x") ⟨none, none, none, none, none, none, none⟩ "tesseract"

/-- C7: create_coupon classifies errors as 404 when the authenticated
user does not exist, 400 when the request has no JSON body or no image
field (an empty image string is also falsy), and 500 when the OCR
extraction raises; on an OCR failure the store is unchanged. -/
theorem C7 (st : Store) (uid : Nat) (g : Except String OCRData) (ph : String → Int) (now : Nat) :
    (userLookup st uid = none →
      ∀ body, create_coupon st uid body g ph now = ⟨st, 404, JsonBody.error "User not found"⟩) ∧
    (∀ u, userLookup st uid = some u →
      create_coupon st uid none g ph now = ⟨st, 400, JsonBody.error "No JSON data provided"⟩ ∧
      create_coupon st uid (some ⟨none⟩) g ph now = ⟨st, 400, JsonBody.error "No image provided"⟩ ∧
      create_coupon st uid (some ⟨some ""⟩) g ph now = ⟨st, 400, JsonBody.error "No image provided"⟩) ∧
    (∀ u img e, userLookup st uid = some u → img ≠ "" →
      (effectiveSettings st uid).ocr_provider = "gpt4o" → g = Except.error e →
      create_coupon st uid (some ⟨some img⟩) g ph now = ⟨st, 500, JsonBody.error e⟩) := by
  refine ⟨?_, ?_, ?_⟩
  · intro h body
    unfold create_coupon
    rw [h]
  · intro u hu
    unfold create_coupon
    rw [hu]
    exact ⟨rfl, rfl, rfl⟩
  · intro u img e hu hne hprov hg
    subst hg
    have hco : couponOCRResult (effectiveSettings st uid).ocr_provider (Except.error e)
        (MockOCR.extract_coupon_data ph now (extractImage img)) = Except.error e := by
      rw [hprov]
      rfl
    simp [create_coupon, hu, hne, hco]

/-- C7 witness: the three error classes exercised on a concrete store
with one user. -/
theorem C7_witness :
    userLookup (Store.mk [⟨1, "a", "A", none, 0⟩] [] [⟨1, 1, false, false, 3, false, "gpt4o"⟩]) 99 = none ∧
    create_coupon (Store.mk [⟨1, "a", "A", none, 0⟩] [] [⟨1, 1, false, false, 3, false, "gpt4o"⟩]) 99 none
        (Except.error "boom") (fun _ => 0) 0
      = ⟨Store.mk [⟨1, "a", "A", none, 0⟩] [] [⟨1, 1, false, false, 3, false, "gpt4o"⟩], 404, JsonBody.error "User not found"⟩ ∧
    create_coupon (Store.mk [⟨1, "a", "A", none, 0⟩] [] [⟨1, 1, false, false, 3, false, "gpt4o"⟩]) 1 none
        (Except.error "boom") (fun _ => 0) 0
      = ⟨Store.mk [⟨1, "a", "A", none, 0⟩] [] [⟨1, 1, false, false, 3, false, "gpt4o"⟩], 400, JsonBody.error "No JSON data provided"⟩ ∧
    create_coupon (Store.mk [⟨1, "a", "A", none, 0⟩] [] [⟨1, 1, false, false, 3, false, "gpt4o"⟩]) 1
        (some ⟨some "img"⟩) (Except.error "boom") (fun _ => 0) 0
      = ⟨Store.mk [⟨1, "a", "A", none, 0⟩] [] [⟨1, 1, false, false, 3, false, "gpt4o"⟩], 500, JsonBody.error "boom"⟩ :=
  ⟨by decide,
    (C7 (Store.mk [⟨1, "a", "A", none, 0⟩] [] [⟨1, 1, false, false, 3, false, "gpt4o"⟩]) 99
      (Except.error "boom") (fun _ => 0) 0).1 (by decide) none,
    ((C7 (Store.mk [⟨1, "a", "A", none, 0⟩] [] [⟨1, 1, false, false, 3, false, "gpt4o"⟩]) 1
      (Except.error "boom") (fun _ => 0) 0).2.1 ⟨1, "a", "A", none, 0⟩ (by decide)).1,
    (C7 (Store.mk [⟨1, "a", "A", none, 0⟩] [] [⟨1, 1, false, false, 3, false, "gpt4o"⟩]) 1
      (Except.error "boom") (fun _ => 0) 0).2.2 ⟨1, "a", "A", none, 0⟩ "img" "boom"
      (by decide) (by decide) (by decide) rfl⟩

/-- C8 counterexample: MockOCR reads the clock, so two invocations on the
same image one day apart return different records (the expiry and
deadline fields move with the clock). -/
theorem C8_cex :
    MockOCR.extract_coupon_data (fun _ => 0) 0 "img"
      ≠ MockOCR.extract_coupon_data (fun _ => 0) 86400 "img" := by
  decide

/-- C8 amended: for a fixed process hash seed, MockOCR is deterministic
in everything but the clock: two invocations on the same image agree on
code, title, provider, discount and terms, while expiryDate and deadline
are the invocation time plus 30 and 25 days. -/
theorem C8_amended (ph : String → Int) (t1 t2 : Nat) (img : String) :
    (MockOCR.extract_coupon_data ph t1 img).code = (MockOCR.extract_coupon_data ph t2 img).code ∧
    (MockOCR.extract_coupon_data ph t1 img).title = (MockOCR.extract_coupon_data ph t2 img).title ∧
    (MockOCR.extract_coupon_data ph t1 img).provider = (MockOCR.extract_coupon_data ph t2 img).provider ∧
    (MockOCR.extract_coupon_data ph t1 img).discount = (MockOCR.extract_coupon_data ph t2 img).discount ∧
    (MockOCR.extract_coupon_data ph t1 img).terms = (MockOCR.extract_coupon_data ph t2 img).terms ∧
    (MockOCR.extract_coupon_data ph t1 img).expiryDate = some (some (t1 + 30 * day)) ∧
    (MockOCR.extract_coupon_data ph t1 img).deadline = some (some (t1 + 25 * day)) :=
  ⟨rfl, rfl, rfl, rfl, rfl, rfl, rfl⟩

/-- C9: every settings string other than gpt4o makes create_coupon use
the mock provider, and the factory ValueError is unreachable from the
handler: the handler path always yields a provider. -/
theorem C9 (s : String) (hs : s ≠ "gpt4o") :
    handlerSelectProvider s = Except.ok OCRProviderT.mock ∧
    (∀ t : String, ∃ p : OCRProviderT, handlerSelectProvider t = Except.ok p) := by
  constructor
  · unfold handlerSelectProvider
    rw [if_neg hs]
    rfl
  · intro t
    by_cases ht : t = "gpt4o"
    · subst ht
      exact ⟨OCRProviderT.gpt4o, rfl⟩
    · refine ⟨OCRProviderT.mock, ?_⟩
      unfold handlerSelectProvider
      rw [if_neg ht]
      rfl

/-- C9 witness: an unknown provider string falls back to the mock
backend. -/
theorem C9_witness :
    ("tesseract4" ≠ "gpt4o") ∧ handlerSelectProvider "tesseract4" = Except.ok OCRProviderT.mock :=
  ⟨by decide, (C9 "tesseract4" (by decide)).1⟩

/-- C10: when the submitted image string holds two or more commas, the
preprocessing keeps exactly the chunk between the first and the second
comma: the data-URL prefix before the first comma AND everything after
the second comma are discarded. -/
theorem C10 (a b c : List Char) (ha : ',' ∉ a) (hb : ',' ∉ b) :
    extractImage (String.mk (a ++ ',' :: (b ++ ',' :: c))) = String.mk b := by
  have hdata : (String.mk (a ++ ',' :: (b ++ ',' :: c))).data
      = a ++ ',' :: (b ++ ',' :: c) := rfl
  have hmem : ',' ∈ (String.mk (a ++ ',' :: (b ++ ',' :: c))).data := by
    rw [hdata]
    exact List.mem_append_right a (List.mem_cons_self _ _)
  unfold extractImage
  rw [if_pos hmem]
  unfold pySplitComma
  rw [hdata, splitChar_append_sep ',' a _ ha, splitChar_append_sep ',' b c hb]
  rfl

/-- C10 witness: a concrete data-URL-shaped input with a third chunk; the
backend receives only the middle chunk. -/
theorem C10_witness :
    (',' ∉ "base64".data) ∧ (',' ∉ "abc".data) ∧
    extractImage (String.mk ("base64".data ++ ',' :: ("abc".data ++ ',' :: "tail".data)))
      = String.mk "abc".data :=
  ⟨by decide, by decide, C10 "base64".data "abc".data "tail".data (by decide) (by decide)⟩

end CouponMatey
